import Mathlib

/-!
Verification of the DWM1001C BLE interface codec and session layer.

Byte buffers are modelled as lists of natural numbers (each entry a byte
value).  Machine integers are modelled as Int with explicit reduction
modulo 2^32 where the source wraps.
-/

/-- Interpretation of a 32-bit unsigned value as a signed 32-bit integer
(twos complement), as struct.unpack with format i does on the four
little-endian bytes. -/
def toInt32 (n : Nat) : Int :=
  if n < 2147483648 then (n : Int) else (n : Int) - 4294967296

/-- Little-endian signed 32-bit read of four byte values, mirroring
struct.unpack of one i field. -/
def decodeI32 (b0 b1 b2 b3 : Nat) : Int :=
  toInt32 (b0 + 256 * b1 + 65536 * b2 + 16777216 * b3)

/-- Little-endian four-byte encoding of an unsigned 32-bit value,
mirroring struct.pack of one I field. -/
def u32le (n : Nat) : List Nat :=
  [n % 256, n / 256 % 256, n / 65536 % 256, n / 16777216 % 256]

/-- Little-endian four-byte encoding of a signed 32-bit value, mirroring
struct.pack of one i field (the source raises for values outside the
signed 32-bit range; under that range hypothesis the reduction modulo
2^32 below is the identity on the represented bit pattern). -/
def i32le (x : Int) : List Nat :=
  u32le ((x % 4294967296).toNat)

/-- Position-kind tag of a decoded position record: byte value 0 is a
plain position, byte value 2 a position with distances, per the comment
in parse_position (0=position, 2=position+distances). -/
inductive PosKind
  | position
  | positionWithDistances
deriving DecidableEq

/-- Codec failure kinds.  The source signals failure by returning None
(parse_position) or raising ValueError (parse_anchor_static); the two
distinct failing branches of parse_position are the length check and the
type-tag check, named here invalidLength and invalidType. -/
inductive CodecError
  | invalidLength
  | invalidType
deriving DecidableEq

/-- Decoded position record.  parse_position in the source additionally
divides the three coordinates by 1000.0 for metre display; the
millimetre integers unpacked from the buffer, kept here, determine that
output. -/
structure PositionRecord where
  kind : PosKind
  x : Int
  y : Int
  z : Int
  quality : Nat
deriving DecidableEq

/-- Embedding of parse_position from "uwb dwm1001c bluetooth test.py"
(the decode_position of the design): reject buffers shorter than 13
bytes, reject a first byte outside the set containing 0 and 2, then
unpack three little-endian signed 32-bit integers from byte offsets 1
to 12 and, when a byte at offset 13 exists, read it as quality
(0 otherwise). -/
def parse_position (data : List Nat) : Except CodecError PositionRecord :=
  if data.length < 13 then
    .error .invalidLength
  else if data.getD 0 0 ≠ 0 ∧ data.getD 0 0 ≠ 2 then
    .error .invalidType
  else
    .ok
      { kind := if data.getD 0 0 = 0 then .position else .positionWithDistances
        x := decodeI32 (data.getD 1 0) (data.getD 2 0) (data.getD 3 0) (data.getD 4 0)
        y := decodeI32 (data.getD 5 0) (data.getD 6 0) (data.getD 7 0) (data.getD 8 0)
        z := decodeI32 (data.getD 9 0) (data.getD 10 0) (data.getD 11 0) (data.getD 12 0)
        quality := if 13 < data.length then data.getD 13 0 else 0 }

/-- Anchor static position record, the payload of the ApoS
characteristic: three millimetre coordinates and a quality percentage,
no leading type byte. -/
structure AnchorStaticPosition where
  x : Int
  y : Int
  z : Int
  q : Nat
deriving DecidableEq

/-- Embedding of parse_anchor_static from operation_mode.py: require
exactly 13 bytes (the source raises ValueError otherwise, modelled as
invalidLength), then unpack struct format iiiB little-endian. -/
def parse_anchor_static (data : List Nat) : Except CodecError AnchorStaticPosition :=
  if data.length ≠ 13 then
    .error .invalidLength
  else
    .ok
      { x := decodeI32 (data.getD 0 0) (data.getD 1 0) (data.getD 2 0) (data.getD 3 0)
        y := decodeI32 (data.getD 4 0) (data.getD 5 0) (data.getD 6 0) (data.getD 7 0)
        z := decodeI32 (data.getD 8 0) (data.getD 9 0) (data.getD 10 0) (data.getD 11 0)
        q := data.getD 12 0 }

/-- Embedding of the anchor-position write payload built in
set_position_uwb.py and write_anchor_position: struct.pack with format
iiiB little-endian, three signed 32-bit coordinates followed by one
quality byte (struct.pack raises for a quality outside one byte; the
round-trip theorem assumes quality at most 100). -/
def encode_anchor_static (x y z : Int) (q : Nat) : List Nat :=
  i32le x ++ i32le y ++ i32le z ++ [q]

/-- Embedding of build_mode_config from gui_tools.py and
operation_mode.py.  The role is the raw string compared against
"anchor" by exact equality, exactly as the source does. -/
def build_mode_config (role : String) : List Nat :=
  let bit7 := if role = "anchor" then 1 <<< 7 else 0
  let uwb_mode := 2 <<< 5
  let fw := 0 <<< 4
  let accel := 1 <<< 3
  let led := 1 <<< 2
  let fw_update := 1 <<< 1
  let ble := 1 <<< 0
  let byte1 := bit7 ||| uwb_mode ||| fw ||| accel ||| led ||| fw_update ||| ble
  let byte2 := if role = "anchor" then 1 <<< 7 else (1 <<< 6) ||| (1 <<< 5)
  [byte1, byte2]

/-- Device role as displayed by decode_op_mode: bit 7 of byte 0 set
means Anchor, clear means Tag. -/
inductive Role
  | tag
  | anchor
deriving DecidableEq

/-- Role string passed to build_mode_config for each role (the GUI
lowercases the dropdown value before calling set_op_mode). -/
def roleStr : Role → String
  | .tag => "tag"
  | .anchor => "anchor"

/-- UWB mode field as displayed by decode_op_mode from the two bits at
positions 5 and 6 of byte 0: 0 OFF, 1 Passive, 2 Active, 3 Unknown. -/
inductive UwbMode
  | off
  | passive
  | active
  | unknown
deriving DecidableEq

/-- Mapping of the two-bit UWB field to its mode, per the uwb_modes
dictionary in decode_op_mode. -/
def uwbModeOf (v : Nat) : UwbMode :=
  if v = 0 then .off
  else if v = 1 then .passive
  else if v = 2 then .active
  else .unknown

/-- Structured content of the fields decode_op_mode extracts from the
two mode-configuration bytes. -/
structure ModeConfig where
  role : Role
  uwbMode : UwbMode
  fwVer : Nat
  accel : Bool
  led : Bool
  fwUpdate : Bool
  ble : Bool
  initiator : Bool
  lowPower : Bool
  locEngine : Bool
deriving DecidableEq

/-- Embedding of decode_op_mode from gui_tools.py and
operation_mode.py (the decode_mode_config of the design).  The source
formats the fields into a display string; this embedding keeps the
extracted fields themselves.  Buffers shorter than 2 bytes are not
decoded (the source falls back to a raw hex display). -/
def decode_op_mode (d : List Nat) : Option ModeConfig :=
  if d.length < 2 then none
  else
    let b0 := d.getD 0 0
    let b1 := d.getD 1 0
    some
      { role := if (b0 >>> 7) &&& 1 = 1 then .anchor else .tag
        uwbMode := uwbModeOf ((b0 >>> 5) &&& 3)
        fwVer := ((b0 >>> 4) &&& 1) + 1
        accel := (b0 >>> 3) &&& 1 = 1
        led := (b0 >>> 2) &&& 1 = 1
        fwUpdate := (b0 >>> 1) &&& 1 = 1
        ble := (b0 >>> 0) &&& 1 = 1
        initiator := (b1 >>> 7) &&& 1 = 1
        lowPower := (b1 >>> 6) &&& 1 = 1
        locEngine := (b1 >>> 5) &&& 1 = 1 }

/-- The ModeConfig whose field values build_mode_config packs for each
role: UWB mode bits 2 (Active), firmware bit clear, accelerometer, LED,
firmware-update and BLE bits set; byte 1 carries bit 7 (initiator) for
anchor and bits 6 and 5 (low power, location engine) for tag. -/
def encoderModeConfig : Role → ModeConfig
  | .tag =>
      { role := .tag, uwbMode := .active, fwVer := 1, accel := true, led := true
        fwUpdate := true, ble := true, initiator := false, lowPower := true
        locEngine := true }
  | .anchor =>
      { role := .anchor, uwbMode := .active, fwVer := 1, accel := true, led := true
        fwUpdate := true, ble := true, initiator := true, lowPower := false
        locEngine := false }

/-- State of one DeviceHandler relevant to connection lifecycle:
whether self.client holds a client object, whether that client reports
is_connected, and the handler fields connected and notifying.  UI label
updates are presentation side effects, not part of this state. -/
structure Session where
  clientIsSome : Bool
  clientIsConnected : Bool
  connected : Bool
  notifying : Bool
deriving DecidableEq

/-- Embedding of DeviceHandler.disconnect from gui_tools.py and
operation_mode.py: when a client exists it best-effort stops
notifications and closes the transport, swallowing any exception; it
then unconditionally clears self.client and sets connected and
notifying to False, so the resulting session state is the same
regardless of the starting state. -/
def DeviceHandler.disconnect (_s : Session) : Session :=
  { clientIsSome := false, clientIsConnected := false
    connected := false, notifying := false }

/-- Embedding of DeviceHandler.force_disconnect_via_char from
gui_tools.py: when no connected client exists it only logs and
returns; otherwise it writes the one-byte disconnect request to the
peer and, in a finally block, always calls disconnect, whether or not
that write raised.  writeOk records the outcome of the control write
and does not influence the resulting state. -/
def DeviceHandler.force_disconnect_via_char (s : Session) (_writeOk : Bool) : Session :=
  if s.clientIsSome && s.clientIsConnected then
    DeviceHandler.disconnect s
  else s

/-- Embedding of DeviceHandler.set_op_mode from gui_tools.py: when no
connected client exists it only logs and returns; otherwise it writes
the mode configuration inside a try block.  When that write succeeds it
calls force_disconnect_via_char; when the write raises, the except
branch only logs the error and the session state is left unchanged.
modeWriteOk is the outcome of the mode write, discWriteOk the outcome
of the disconnect-request write inside force_disconnect_via_char. -/
def DeviceHandler.set_op_mode (s : Session) (modeWriteOk discWriteOk : Bool) : Session :=
  if s.clientIsSome && s.clientIsConnected then
    if modeWriteOk then
      DeviceHandler.force_disconnect_via_char s discWriteOk
    else s
  else s

/-- Result of decode_location_data in gui_tools.py on one live-update
frame: a buffer of at least 14 bytes is decoded into type byte, three
little-endian signed 32-bit coordinates and a quality byte; a shorter
buffer falls back to a raw hex display carrying only its length here.
The struct.error fallback in the source cannot trigger, because the
slice of bytes 1 to 12 always holds twelve bytes once the length check
passed. -/
inductive LocResult
  | decoded (msgType : Nat) (x y z : Int) (q : Nat)
  | raw (len : Nat)
deriving DecidableEq

/-- Whether a live-update frame was actually decoded into a position
rather than displayed raw. -/
def LocResult.isDecoded : LocResult → Bool
  | .decoded _ _ _ _ _ => true
  | .raw _ => false

/-- Embedding of decode_location_data from gui_tools.py. -/
def decode_location_data (d : List Nat) : LocResult :=
  if d.length < 14 then .raw d.length
  else
    .decoded (d.getD 0 0)
      (decodeI32 (d.getD 1 0) (d.getD 2 0) (d.getD 3 0) (d.getD 4 0))
      (decodeI32 (d.getD 5 0) (d.getD 6 0) (d.getD 7 0) (d.getD 8 0))
      (decodeI32 (d.getD 9 0) (d.getD 10 0) (d.getD 11 0) (d.getD 12 0))
      (d.getD 13 0)

/-- State of an active location subscription: the notifying flag of the
handler and the most recently delivered livestream content. -/
structure SubState where
  notifying : Bool
  livestream : LocResult
deriving DecidableEq

/-- Embedding of the notification callback installed by
start_location_notify in gui_tools.py: each delivered frame is passed
to decode_location_data and the result shown in the livestream label;
the callback never unsubscribes and never touches the notifying flag,
and its try block confines any display exception to a log entry. -/
def notify_step (s : SubState) (frame : List Nat) : SubState :=
  { s with livestream := decode_location_data frame }

/-- Reassembling the four little-endian bytes of a signed 32-bit value
and sign-extending recovers the value, for any value in the signed
32-bit range. -/
theorem decodeI32_i32le (x : Int) (h1 : -2147483648 ≤ x) (h2 : x < 2147483648) :
    decodeI32 ((x % 4294967296).toNat % 256) ((x % 4294967296).toNat / 256 % 256)
      ((x % 4294967296).toNat / 65536 % 256) ((x % 4294967296).toNat / 16777216 % 256) = x := by
  unfold decodeI32 toInt32
  split <;> omega

/-- C1 (amended): parse_position fails with invalidLength exactly when
the buffer is shorter than 13 bytes; in particular every length-5
buffer fails with invalidLength; buffers of length 15 or more are not
rejected for length, and decode whenever the first byte is a
recognized tag. -/
theorem parse_position_length_policy (b : List Nat) :
    (parse_position b = Except.error CodecError.invalidLength ↔ b.length < 13) ∧
    (b.length = 5 → parse_position b = Except.error CodecError.invalidLength) ∧
    (15 ≤ b.length → (b.getD 0 0 = 0 ∨ b.getD 0 0 = 2) →
      ∃ r, parse_position b = Except.ok r) := by
  by_cases h1 : b.length < 13
  · have he : parse_position b = Except.error CodecError.invalidLength := by
      unfold parse_position
      rw [if_pos h1]
    exact ⟨iff_of_true he h1, fun _ => he, fun h15 _ => absurd h15 (by omega)⟩
  · by_cases h2 : b.getD 0 0 ≠ 0 ∧ b.getD 0 0 ≠ 2
    · have he : parse_position b = Except.error CodecError.invalidType := by
        unfold parse_position
        rw [if_neg h1, if_pos h2]
      refine ⟨iff_of_false (by rw [he]; simp) h1, fun h5 => absurd h5 (by omega),
        fun _ ht => absurd ht (by tauto)⟩
    · have hr : parse_position b = Except.ok
          { kind := if b.getD 0 0 = 0 then PosKind.position else PosKind.positionWithDistances
            x := decodeI32 (b.getD 1 0) (b.getD 2 0) (b.getD 3 0) (b.getD 4 0)
            y := decodeI32 (b.getD 5 0) (b.getD 6 0) (b.getD 7 0) (b.getD 8 0)
            z := decodeI32 (b.getD 9 0) (b.getD 10 0) (b.getD 11 0) (b.getD 12 0)
            quality := if 13 < b.length then b.getD 13 0 else 0 } := by
        unfold parse_position
        rw [if_neg h1, if_neg h2]
      exact ⟨iff_of_false (by rw [hr]; simp) h1, fun h5 => absurd h5 (by omega),
        fun _ _ => ⟨_, hr⟩⟩

/-- Witness for parse_position_length_policy at the length-5 buffer of
zero bytes. -/
theorem parse_position_length_policy_witness :
    parse_position [0, 0, 0, 0, 0] = Except.error CodecError.invalidLength :=
  (parse_position_length_policy [0, 0, 0, 0, 0]).2.1 rfl

/-- C1 counterexample: a 15-byte buffer with recognized type byte 0
decodes successfully rather than failing, so decode is not restricted
to lengths 13 and 14. -/
theorem parse_position_accepts_length_15 :
    parse_position (List.replicate 15 0) =
      Except.ok { kind := PosKind.position, x := 0, y := 0, z := 0, quality := 0 } := rfl

/-- C2: every 13-byte buffer whose first byte is a recognized tag
decodes to a record with quality 0 (the absent-field default) and the
three coordinates read as little-endian signed 32-bit integers from
byte offsets 1 to 12. -/
theorem parse_position_13_defaults_quality (b : List Nat) (h : b.length = 13)
    (ht : b.getD 0 0 = 0 ∨ b.getD 0 0 = 2) :
    parse_position b = Except.ok
      { kind := if b.getD 0 0 = 0 then PosKind.position else PosKind.positionWithDistances
        x := decodeI32 (b.getD 1 0) (b.getD 2 0) (b.getD 3 0) (b.getD 4 0)
        y := decodeI32 (b.getD 5 0) (b.getD 6 0) (b.getD 7 0) (b.getD 8 0)
        z := decodeI32 (b.getD 9 0) (b.getD 10 0) (b.getD 11 0) (b.getD 12 0)
        quality := 0 } := by
  unfold parse_position
  rw [if_neg (show ¬b.length < 13 by omega),
    if_neg (show ¬(b.getD 0 0 ≠ 0 ∧ b.getD 0 0 ≠ 2) by tauto),
    if_neg (show ¬13 < b.length by omega)]

/-- Witness for parse_position_13_defaults_quality at the all-zero
13-byte buffer. -/
theorem parse_position_13_defaults_quality_witness :
    parse_position (List.replicate 13 0) =
      Except.ok { kind := PosKind.position, x := 0, y := 0, z := 0, quality := 0 } := by
  have h := parse_position_13_defaults_quality (List.replicate 13 0) rfl (Or.inl rfl)
  exact h.trans (by rfl)

/-- C3: a buffer of length 13 or 14 whose first byte is neither 0 nor 2
fails with invalidType; it never decodes to a record with a default
kind. -/
theorem parse_position_invalid_type (b : List Nat) (h : b.length = 13 ∨ b.length = 14)
    (h0 : b.getD 0 0 ≠ 0) (h2 : b.getD 0 0 ≠ 2) :
    parse_position b = Except.error CodecError.invalidType := by
  unfold parse_position
  rw [if_neg (show ¬b.length < 13 by omega), if_pos ⟨h0, h2⟩]

/-- Witness for parse_position_invalid_type at a 13-byte buffer with
first byte 1. -/
theorem parse_position_invalid_type_witness :
    parse_position (1 :: List.replicate 12 0) = Except.error CodecError.invalidType :=
  parse_position_invalid_type (1 :: List.replicate 12 0) (Or.inl rfl)
    (by decide) (by decide)

/-- C4: every 14-byte buffer made of type byte 0, three little-endian
signed 32-bit coordinates and final quality byte 100 decodes to exactly
the plain-position record with those coordinates and quality 100. -/
theorem parse_position_14_exact (x y z : Int)
    (hx1 : -2147483648 ≤ x) (hx2 : x < 2147483648)
    (hy1 : -2147483648 ≤ y) (hy2 : y < 2147483648)
    (hz1 : -2147483648 ≤ z) (hz2 : z < 2147483648) :
    parse_position (0 :: (i32le x ++ i32le y ++ i32le z ++ [100])) =
      Except.ok { kind := PosKind.position, x := x, y := y, z := z, quality := 100 } := by
  simp only [i32le, u32le, List.cons_append, List.nil_append]
  unfold parse_position
  simp only [List.length_cons, List.length_append, List.length_nil, List.getD,
    List.getElem?_cons_zero, List.getElem?_cons_succ, Option.getD_some]
  norm_num
  rw [decodeI32_i32le x hx1 hx2, decodeI32_i32le y hy1 hy2, decodeI32_i32le z hz1 hz2]
  exact ⟨rfl, rfl, rfl⟩

/-- Witness for parse_position_14_exact at the example of the design
document: x 1000, y 2000, z 1500, type 0, quality 100. -/
theorem parse_position_14_exact_witness :
    parse_position (0 :: (i32le 1000 ++ i32le 2000 ++ i32le 1500 ++ [100])) =
      Except.ok { kind := PosKind.position, x := 1000, y := 2000, z := 1500, quality := 100 } :=
  parse_position_14_exact 1000 2000 1500 (by decide) (by decide) (by decide)
    (by decide) (by decide) (by decide)

/-- C5: for each role the mode-configuration encoder supports, decoding
its two output bytes recovers exactly that role together with the fixed
option values the encoder packs. -/
theorem mode_config_roundtrip (r : Role) :
    decode_op_mode (build_mode_config (roleStr r)) = some (encoderModeConfig r) := by
  cases r <;> decide

/-- C6: the anchor static position payload is exactly 13 bytes, three
little-endian signed 32-bit coordinates followed by one quality byte,
and decoding it recovers exactly the encoded values. -/
theorem anchor_static_roundtrip (x y z : Int) (q : Nat)
    (hx1 : -2147483648 ≤ x) (hx2 : x < 2147483648)
    (hy1 : -2147483648 ≤ y) (hy2 : y < 2147483648)
    (hz1 : -2147483648 ≤ z) (hz2 : z < 2147483648)
    (_hq : q ≤ 100) :
    (encode_anchor_static x y z q).length = 13 ∧
    parse_anchor_static (encode_anchor_static x y z q) =
      Except.ok { x := x, y := y, z := z, q := q } := by
  unfold encode_anchor_static
  simp only [i32le, u32le, List.cons_append, List.nil_append]
  refine ⟨rfl, ?_⟩
  unfold parse_anchor_static
  simp only [List.length_cons, List.length_nil, List.getD,
    List.getElem?_cons_zero, List.getElem?_cons_succ, Option.getD_some]
  norm_num
  rw [decodeI32_i32le x hx1 hx2, decodeI32_i32le y hy1 hy2, decodeI32_i32le z hz1 hz2]
  exact ⟨rfl, rfl, rfl⟩

/-- Witness for anchor_static_roundtrip at the write example of
set_position_uwb.py: x 1000, y 1000, z 0, quality 100. -/
theorem anchor_static_roundtrip_witness :
    (encode_anchor_static 1000 1000 0 100).length = 13 ∧
    parse_anchor_static (encode_anchor_static 1000 1000 0 100) =
      Except.ok { x := 1000, y := 1000, z := 0, q := 100 } :=
  anchor_static_roundtrip 1000 1000 0 100 (by decide) (by decide) (by decide)
    (by decide) (by decide) (by decide) (by decide)

/-- C7 counterexample: for a fully connected session, when the
mode-configuration write fails, set_op_mode catches the exception,
only logs it, and leaves the session connected — the forced disconnect
is not performed in that branch. -/
theorem set_op_mode_failed_write_stays_connected :
    (DeviceHandler.set_op_mode
      { clientIsSome := true, clientIsConnected := true, connected := true, notifying := true }
      false true).connected = true := rfl

/-- C7 (amended): for a connected session, when the mode-configuration
write succeeds, set_op_mode always reaches the forced disconnect and
the session ends fully torn down whether or not the disconnect-request
write to the peer succeeds; when the mode-configuration write itself
fails, the session state is left unchanged (still connected). -/
theorem set_op_mode_disconnect_branches (s : Session)
    (h1 : s.clientIsSome = true) (h2 : s.clientIsConnected = true) (discWriteOk : Bool) :
    DeviceHandler.set_op_mode s true discWriteOk =
      { clientIsSome := false, clientIsConnected := false
        connected := false, notifying := false } ∧
    DeviceHandler.set_op_mode s false discWriteOk = s := by
  unfold DeviceHandler.set_op_mode DeviceHandler.force_disconnect_via_char
    DeviceHandler.disconnect
  rw [h1, h2]
  exact ⟨rfl, rfl⟩

/-- Witness for set_op_mode_disconnect_branches at a fully connected
session with a failing disconnect-request write. -/
theorem set_op_mode_disconnect_branches_witness :
    DeviceHandler.set_op_mode
      { clientIsSome := true, clientIsConnected := true, connected := true, notifying := true }
      true false =
      { clientIsSome := false, clientIsConnected := false
        connected := false, notifying := false } :=
  (set_op_mode_disconnect_branches
    { clientIsSome := true, clientIsConnected := true, connected := true, notifying := true }
    rfl rfl false).1

/-- C8: processing a live-update frame never changes the notifying
flag, a malformed frame (shorter than 14 bytes) only produces the raw
fallback display, and a valid frame delivered afterwards is still
decoded into a position record. -/
theorem malformed_frame_keeps_subscription (s : SubState) (m v : List Nat)
    (hs : s.notifying = true) (hm : m.length < 14) (hv : 14 ≤ v.length) :
    (notify_step s m).notifying = true ∧
    (notify_step s m).livestream = LocResult.raw m.length ∧
    (notify_step (notify_step s m) v).notifying = true ∧
    (notify_step (notify_step s m) v).livestream = decode_location_data v ∧
    (decode_location_data v).isDecoded = true := by
  refine ⟨hs, ?_, hs, rfl, ?_⟩
  · show decode_location_data m = LocResult.raw m.length
    unfold decode_location_data
    rw [if_pos hm]
  · unfold decode_location_data
    rw [if_neg (show ¬v.length < 14 by omega)]
    rfl

/-- Witness for malformed_frame_keeps_subscription: an empty frame
followed by an all-zero 14-byte frame on an active subscription. -/
theorem malformed_frame_keeps_subscription_witness :
    (notify_step (notify_step { notifying := true, livestream := LocResult.raw 0 } [])
      (List.replicate 14 0)).notifying = true :=
  (malformed_frame_keeps_subscription
    { notifying := true, livestream := LocResult.raw 0 } [] (List.replicate 14 0)
    rfl (by decide) (by decide)).2.2.1

/-- C9: disconnect is idempotent — a second call leaves the session in
the same state as the first, with the client cleared and the connected
and notifying flags false, and the embedded teardown never propagates
an error (it is a total function on session states). -/
theorem disconnect_idempotent (s : Session) :
    DeviceHandler.disconnect (DeviceHandler.disconnect s) = DeviceHandler.disconnect s ∧
    (DeviceHandler.disconnect s).clientIsSome = false ∧
    (DeviceHandler.disconnect s).connected = false ∧
    (DeviceHandler.disconnect s).notifying = false :=
  ⟨rfl, rfl, rfl, rfl⟩

/-- C10: build_mode_config always returns exactly two bytes; every role
string other than the exact string "anchor" (including capitalized
variants) yields the tag encoding with bytes 79 and 96 (0x4F, 0x60),
and only the exact string "anchor" yields the anchor encoding with
bytes 207 and 128 (0xCF, 0x80). -/
theorem build_mode_config_exact_match (role : String) :
    (build_mode_config role).length = 2 ∧
    (role ≠ "anchor" → build_mode_config role = [79, 96]) ∧
    (role = "anchor" → build_mode_config role = [207, 128]) := by
  by_cases h : role = "anchor"
  · subst h
    exact ⟨by decide, fun hh => absurd rfl hh, fun _ => by decide⟩
  · have hb : build_mode_config role = [79, 96] := by
      simp only [build_mode_config, if_neg h]
      decide
    exact ⟨by rw [hb]; rfl, fun _ => hb, fun hh => absurd hh h⟩

/-- Witness for build_mode_config_exact_match at the capitalized role
string: it is not the exact string "anchor", so it produces the tag
encoding. -/
theorem build_mode_config_exact_match_witness :
    build_mode_config "Anchor" = [79, 96] :=
  (build_mode_config_exact_match "Anchor").2.1 (by decide)
